import Mathlib

/-!
Verification of the Datus connector-adapter layer (ClickHouse and Redshift
connectors) against its natural-language specification.  The repository ships
the connectors' test suites and the package entry point; the connector and
configuration modules themselves are modelled here from the specification
(each such definition carries a doc comment starting `Modelled from the
spec:`), faithful to the spec's words and checked against the values the
test suites pin down.
-/

namespace Datus

/-- Modelled from the spec: the resolver wraps one segment in the engine's
quote character (`quoteSeg q s` is the segment `s` wrapped in quote `q`). -/
def quoteSeg (q s : String) : String := q ++ s ++ q

/-- Modelled from the spec: the namespace levels actually supplied — the
resolver uses only the levels that are present (not `none`) and non-empty,
"omitting empty/None levels". -/
def suppliedLevels (ls : List (Option String)) : List String :=
  (ls.filterMap id).filter (fun s => s ≠ "")

/-- Modelled from the spec: dot-joining of segments. -/
def dotJoin : List String → String
  | [] => ""
  | [s] => s
  | s :: rest => s ++ "." ++ dotJoin rest

/-- Modelled from the spec: `full_name` renders a dot-joined reference in
which each supplied non-empty namespace level and the table name is
individually wrapped in the engine's quote character. -/
def full_name (q : String) (ls : List (Option String)) (table : String) : String :=
  dotJoin ((suppliedLevels ls).map (quoteSeg q) ++ [quoteSeg q table])

/-- Modelled from the spec: `identifier` is the plain, unquoted dot-joined
logical name, with the same level-omission rule as `full_name`. -/
def identifier (ls : List (Option String)) (table : String) : String :=
  dotJoin (suppliedLevels ls ++ [table])

/-- The ClickHouse dialect quotes with backticks (U+0060). -/
def chQuote : String := "\x60"

/-- The Redshift dialect quotes with double quotes. -/
def rsQuote : String := "\""

namespace ClickHouse

/-- Modelled from the spec: the ClickHouse connector declares one namespace
level (database) and backtick quoting. -/
def full_name (database_name : Option String) (table_name : String) : String :=
  Datus.full_name chQuote [database_name] table_name

/-- Modelled from the spec: the ClickHouse connector's unquoted identifier. -/
def identifier (database_name : Option String) (table_name : String) : String :=
  Datus.identifier [database_name] table_name

end ClickHouse

namespace Redshift

/-- Modelled from the spec: the Redshift connector declares two namespace
levels (database, schema) and double-quote quoting. -/
def full_name (database_name schema_name : Option String) (table_name : String) : String :=
  Datus.full_name rsQuote [database_name, schema_name] table_name

/-- Modelled from the spec: the Redshift connector's unquoted identifier. -/
def identifier (database_name schema_name : Option String) (table_name : String) : String :=
  Datus.identifier [database_name, schema_name] table_name

end Redshift

end Datus

namespace Datus

/-- Modelled from the spec: a cell value in a result row (the engines in
scope return integers and strings in the scenarios the spec fixes). -/
inductive Value
  | int (i : Int)
  | str (s : String)
deriving DecidableEq

/-- Modelled from the spec: a result row is a field-name-to-value mapping. -/
abbrev Row := List (String × Value)

/-- Modelled from the spec: the visible state of one engine database — the
tables it holds, each a named ordered list of rows. -/
structure DBState where
  tables : List (String × List Row)
deriving DecidableEq

/-- Look a table's rows up by name. -/
def DBState.lookupTable (db : DBState) (t : String) : Option (List Row) :=
  db.tables.lookup t

/-- Replace the rows of a named table, leaving other tables untouched. -/
def DBState.setTable (db : DBState) (t : String) (rs : List Row) : DBState :=
  ⟨db.tables.map (fun p => if p.1 = t then (t, rs) else p)⟩

/-- Modelled from the spec: the statement forms the spec's scenarios
exercise — constant select, star/projected selects with an equality filter,
and the DML verbs. -/
inductive Stmt
  | selectConst (name : String) (v : Value)
  | selectAll (table : String)
  | selectCols (cols : List String) (table : String)
  | selectWhere (cols : List String) (table wcol : String) (wval : Value)
  | update (table scol : String) (sval : Value) (wcol : String) (wval : Value)
  | delete (table wcol : String) (wval : Value)
  | insert (table : String) (newRows : List Row)
  | createTable (table : String)
deriving DecidableEq

/-- Modelled from the spec: the QueryError taxonomy entry — malformed SQL or
reference to a non-existent object. -/
inductive QueryError
  | unknownTable (t : String)
deriving DecidableEq

deriving instance DecidableEq for Except

/-- Restrict a row to the named columns, in the requested order. -/
def projectRow (cols : List String) (r : Row) : Row :=
  cols.filterMap (fun c => (r.lookup c).map (fun v => (c, v)))

/-- Does a row satisfy the equality filter `wcol = wval`? -/
def rowMatches (wcol : String) (wval : Value) (r : Row) : Bool :=
  r.lookup wcol = some wval

/-- Overwrite column `c` with `v` in a row, leaving other columns as is. -/
def setCol (c : String) (v : Value) (r : Row) : Row :=
  r.map (fun p => if p.1 = c then (c, v) else p)

/-- Outcome of running one statement: the new database state, the returned
rows (`some` for selects, `none` for DML/DDL), and the engine-reported row
count (`none` for DDL, per the spec never a fabricated zero). -/
structure RunOutcome where
  db : DBState
  rows : Option (List Row)
  rowCount : Option Nat
deriving DecidableEq

/-- Modelled from the spec: the engine-side semantics of one statement.
Referencing a non-existent table is a QueryError; DML verbs report the
number of affected rows; selects return rows in engine order. -/
def runStmt (db : DBState) : Stmt → Except QueryError RunOutcome
  | .selectConst n v => .ok ⟨db, some [[(n, v)]], some 1⟩
  | .selectAll t =>
    match db.lookupTable t with
    | none => .error (.unknownTable t)
    | some rs => .ok ⟨db, some rs, some rs.length⟩
  | .selectCols cols t =>
    match db.lookupTable t with
    | none => .error (.unknownTable t)
    | some rs => .ok ⟨db, some (rs.map (projectRow cols)), some rs.length⟩
  | .selectWhere cols t wc wv =>
    match db.lookupTable t with
    | none => .error (.unknownTable t)
    | some rs =>
      let sel := (rs.filter (rowMatches wc wv)).map (projectRow cols)
      .ok ⟨db, some sel, some sel.length⟩
  | .update t sc sv wc wv =>
    match db.lookupTable t with
    | none => .error (.unknownTable t)
    | some rs =>
      .ok ⟨db.setTable t (rs.map (fun r => if rowMatches wc wv r then setCol sc sv r else r)),
        none, some (rs.filter (rowMatches wc wv)).length⟩
  | .delete t wc wv =>
    match db.lookupTable t with
    | none => .error (.unknownTable t)
    | some rs =>
      .ok ⟨db.setTable t (rs.filter (fun r => ¬ rowMatches wc wv r)),
        none, some (rs.filter (rowMatches wc wv)).length⟩
  | .insert t newRows =>
    match db.lookupTable t with
    | none => .error (.unknownTable t)
    | some rs => .ok ⟨db.setTable t (rs ++ newRows), none, some newRows.length⟩
  | .createTable t => .ok ⟨⟨db.tables ++ [(t, [])]⟩, none, none⟩

/-- Modelled from the spec: the normalized Execution Result — success flag,
error detail (present iff success is false), row count, payload. -/
structure SqlResult where
  success : Bool
  error : Option String
  row_count : Option Nat
  sql_return : Option (List Row)
deriving DecidableEq

/-- Render a QueryError as an actionable error-detail string. -/
def QueryError.message : QueryError → String
  | .unknownTable t => "table does not exist: " ++ t

/-- Modelled from the spec: the ClickHouse connector's typed exception
(DatusException) carrying the error detail. -/
inductive DatusException
  | queryError (e : QueryError)
deriving DecidableEq

namespace ClickHouse

/-- Modelled from the spec: ClickHouse connector execution in its documented
mode — a failure raises a typed exception (`Except.error`), a success
returns a fresh Execution Result. -/
def execute (db : DBState) (q : Stmt) : Except DatusException (DBState × SqlResult) :=
  match runStmt db q with
  | .error e => .error (.queryError e)
  | .ok o => .ok (o.db,
      { success := true, error := none, row_count := o.rowCount, sql_return := o.rows })

end ClickHouse

namespace Redshift

/-- Modelled from the spec: Redshift connector execution in its documented
mode — a failure returns an Execution Result with success=false and error
populated, never raising. -/
def execute_query (db : DBState) (q : Stmt) : DBState × SqlResult :=
  match runStmt db q with
  | .error e => (db,
      { success := false, error := some e.message, row_count := none, sql_return := none })
  | .ok o => (o.db,
      { success := true, error := none, row_count := o.rowCount, sql_return := o.rows })

end Redshift

/-- Modelled from the spec: `get_sample_rows` — one record per table with the
table name and up to `top_n` rows in engine order, omitting tables that do
not exist rather than failing the whole call. -/
structure SampleRecord where
  table_name : String
  sample_rows : List Row
deriving DecidableEq

/-- Modelled from the spec: the sampling operation shared by the connectors. -/
def get_sample_rows (db : DBState) (tables : List String) (top_n : Nat) : List SampleRecord :=
  tables.filterMap (fun t => (db.lookupTable t).map (fun rs => ⟨t, rs.take top_n⟩))

/-- Lower-case one basic-latin character (the engines' type names are
ASCII). -/
def lowerChar (c : Char) : Char :=
  if 65 ≤ c.toNat ∧ c.toNat ≤ 90 then Char.ofNat (c.toNat + 32) else c

/-- Lower-case a string character by character. -/
def lowerStr (s : String) : String := ⟨s.data.map lowerChar⟩

/-- Does `needle` occur at the start of `hay`? -/
def startsWithL : List Char → List Char → Bool
  | [], _ => true
  | _ :: _, [] => false
  | a :: as, b :: bs => a == b && startsWithL as bs

/-- Does `needle` occur anywhere inside `hay`? -/
def hasSubL (needle : List Char) : List Char → Bool
  | [] => startsWithL needle []
  | b :: bs => startsWithL needle (b :: bs) || hasSubL needle bs

/-- Substring containment on strings ("contains" in the spec's sense). -/
def containsSub (needle hay : String) : Bool := hasSubL needle.data hay.data

/-- Modelled from the spec: one column as the engine reports it — name,
engine-native type name, and the engine's nullability / primary-key
reporting. -/
structure RawColumn where
  name : String
  nativeType : String
  nullable : Bool
  pk : Bool
deriving DecidableEq

/-- Modelled from the spec: the normalized Column Descriptor — name,
lower-cased normalized type string, and boolean nullability and primary-key
flags that are never absent. -/
structure ColumnDescriptor where
  name : String
  type : String
  nullable : Bool
  pk : Bool
deriving DecidableEq

namespace ClickHouse

/-- Modelled from the spec: ClickHouse type normalization — the native type
name lower-cased (native 64-bit integer names already contain "Int64" and
textual ones "String"). -/
def normalizeType (s : String) : String := lowerStr s

/-- Modelled from the spec: `get_schema` maps the engine-reported columns,
in engine order, to normalized Column Descriptors. -/
def get_schema (cols : List RawColumn) : List ColumnDescriptor :=
  cols.map (fun c => ⟨c.name, normalizeType c.nativeType, c.nullable, c.pk⟩)

end ClickHouse

namespace Redshift

/-- Modelled from the spec: the common-vocabulary mapping for Redshift's
native type names (64-bit integer variants map to "int64", textual variants
to "string"). -/
def typeVocab : List (String × String) :=
  [("bigint", "int64"), ("int8", "int64"),
   ("integer", "int32"), ("int", "int32"), ("int4", "int32"),
   ("smallint", "int16"), ("int2", "int16"),
   ("character varying", "string"), ("varchar", "string"),
   ("character", "string"), ("char", "string"), ("bpchar", "string"),
   ("text", "string")]

/-- Modelled from the spec: Redshift type normalization — lower-case the
native name and map it through the common vocabulary. -/
def normalizeType (s : String) : String :=
  match typeVocab.lookup (lowerStr s) with
  | some v => v
  | none => lowerStr s

/-- Modelled from the spec: `get_schema` maps the engine-reported columns,
in engine order, to normalized Column Descriptors. -/
def get_schema (cols : List RawColumn) : List ColumnDescriptor :=
  cols.map (fun c => ⟨c.name, normalizeType c.nativeType, c.nullable, c.pk⟩)

end Redshift

/-- Modelled from the spec: a value in an unordered string-keyed
configuration mapping. -/
inductive ConfigValue
  | str (s : String)
  | nat (n : Nat)
  | bool (b : Bool)
deriving DecidableEq

/-- An unordered string-keyed configuration mapping, consulted only through
key lookup. -/
abbrev ConfigDict := List (String × ConfigValue)

/-- Look a string field up in a configuration mapping, with a default. -/
def getStr (d : ConfigDict) (k : String) (dflt : String) : String :=
  match d.lookup k with
  | some (.str s) => s
  | _ => dflt

/-- Look a numeric field up in a configuration mapping, with a default. -/
def getNat (d : ConfigDict) (k : String) (dflt : Nat) : Nat :=
  match d.lookup k with
  | some (.nat n) => n
  | _ => dflt

/-- Look a boolean field up in a configuration mapping, with a default. -/
def getBool (d : ConfigDict) (k : String) (dflt : Bool) : Bool :=
  match d.lookup k with
  | some (.bool b) => b
  | _ => dflt

/-- Modelled from the spec: the ConfigurationError raised when a required
connection parameter is missing. -/
inductive ConfigurationError
  | missingField (f : String)
deriving DecidableEq

/-- Modelled from the spec: the Redshift Configuration — host, port,
credentials, default database and schema, TLS flag, timeout, with the
engine-specific defaults the test suite pins down (port 5439, SSL on). -/
structure RedshiftConfig where
  host : String
  username : String
  password : String
  database : String := ""
  schema_name : String := ""
  port : Nat := 5439
  ssl : Bool := true
  timeout_seconds : Nat := 30
deriving DecidableEq

/-- Modelled from the spec: the ClickHouse Configuration — host, port,
credentials, default database, with the native-protocol default port. -/
structure ClickHouseConfig where
  host : String
  port : Nat := 9000
  username : String
  password : String := ""
  database : String := ""
deriving DecidableEq

/-- Modelled from the spec: normalizing an unordered mapping into a
validated Redshift Configuration — required fields host, username, password;
every other field takes its engine default when absent. -/
def RedshiftConfig.fromDict (d : ConfigDict) : Except ConfigurationError RedshiftConfig :=
  match d.lookup "host" with
  | some (.str h) =>
    match d.lookup "username" with
    | some (.str u) =>
      match d.lookup "password" with
      | some (.str p) =>
        .ok { host := h, username := u, password := p,
              database := getStr d "database" "",
              schema_name := getStr d "schema" "",
              port := getNat d "port" 5439,
              ssl := getBool d "ssl" true,
              timeout_seconds := getNat d "timeout_seconds" 30 }
      | _ => .error (.missingField "password")
    | _ => .error (.missingField "username")
  | _ => .error (.missingField "host")

/-- Modelled from the spec: normalizing an unordered mapping into a
validated ClickHouse Configuration — required fields host and username. -/
def ClickHouseConfig.fromDict (d : ConfigDict) : Except ConfigurationError ClickHouseConfig :=
  match d.lookup "host" with
  | some (.str h) =>
    match d.lookup "username" with
    | some (.str u) =>
      .ok { host := h, username := u,
            port := getNat d "port" 9000,
            password := getStr d "password" "",
            database := getStr d "database" "" }
    | _ => .error (.missingField "username")
  | _ => .error (.missingField "host")

/-- Render a typed Redshift Configuration as the equivalent string-keyed
mapping. -/
def RedshiftConfig.toDict (c : RedshiftConfig) : ConfigDict :=
  [("host", .str c.host), ("username", .str c.username), ("password", .str c.password),
   ("database", .str c.database), ("schema", .str c.schema_name),
   ("port", .nat c.port), ("ssl", .bool c.ssl), ("timeout_seconds", .nat c.timeout_seconds)]

/-- Render a typed ClickHouse Configuration as the equivalent string-keyed
mapping. -/
def ClickHouseConfig.toDict (c : ClickHouseConfig) : ConfigDict :=
  [("host", .str c.host), ("port", .nat c.port), ("username", .str c.username),
   ("password", .str c.password), ("database", .str c.database)]

/-- Modelled from the spec: the engine tags and Connector implementations
the host registry can bind. -/
inductive ConnectorImpl
  | clickHouseConnector
  | redshiftConnector
deriving DecidableEq

/-- The host's connector registry, as the bindings it holds. -/
abbrev Registry := List (String × ConnectorImpl)

/-- Modelled from the spec: the host registry's registration hook
(`connector_registry.register`, outside this repository) binds one engine
tag to one implementation. -/
def registryRegister (tag : String) (impl : ConnectorImpl) (reg : Registry) : Registry :=
  (tag, impl) :: reg

/-- The package entry point `datus_clickhouse.register()`: it calls
`connector_registry.register("clickhouse", ClickHouseConnector)` and nothing
else. -/
def register (reg : Registry) : Registry :=
  registryRegister "clickhouse" .clickHouseConnector reg

/-- The ClickHouse 64-bit integer type names the claim ranges over. -/
def chInt64Types : List String := ["Int64", "UInt64", "Nullable(Int64)", "Nullable(UInt64)"]

/-- The ClickHouse textual type names the claim ranges over. -/
def chStringTypes : List String := ["String", "Nullable(String)", "LowCardinality(String)"]

/-- The Redshift 64-bit integer type names the claim ranges over. -/
def rsInt64Types : List String := ["bigint", "BIGINT", "int8"]

/-- The Redshift textual type names the claim ranges over. -/
def rsStringTypes : List String :=
  ["character varying", "varchar", "text", "char", "character", "bpchar"]

/-- C1: for every engine, `full_name` renders a dot-joined reference in which
each supplied non-empty namespace level and the table name is individually
wrapped in that engine's quote character (backticks for ClickHouse, double
quotes for Redshift), omitting absent levels and never emitting empty quoted
segments; with only `table_name` it returns just the quoted table segment,
ClickHouse with database+table gives backtick-quoted `mydb`.`mytable`, and
Redshift with database+schema+table gives "mydb"."myschema"."mytable". -/
theorem C1_full_name_quoted_segments :
    (∀ t : String, ClickHouse.full_name none t = "\x60" ++ t ++ "\x60") ∧
    (∀ t : String, Redshift.full_name none none t = "\"" ++ t ++ "\"") ∧
    (∀ db t : String, db ≠ "" →
      ClickHouse.full_name (some db) t
        = ("\x60" ++ db ++ "\x60") ++ "." ++ ("\x60" ++ t ++ "\x60")) ∧
    (∀ db sc t : String, db ≠ "" → sc ≠ "" →
      Redshift.full_name (some db) (some sc) t
        = ("\"" ++ db ++ "\"") ++ "." ++ (("\"" ++ sc ++ "\"") ++ "." ++ ("\"" ++ t ++ "\""))) ∧
    (∀ t : String, ClickHouse.full_name (some "") t = "\x60" ++ t ++ "\x60") ∧
    (∀ t : String, Redshift.full_name (some "") (some "") t = "\"" ++ t ++ "\"") ∧
    ClickHouse.full_name (some "mydb") "mytable" = "\x60mydb\x60.\x60mytable\x60" ∧
    Redshift.full_name (some "mydb") (some "myschema") "mytable"
      = "\"mydb\".\"myschema\".\"mytable\"" := by
  refine ⟨fun t => ?_, fun t => ?_, fun db t h => ?_, fun db sc t h1 h2 => ?_,
    fun t => ?_, fun t => ?_, ?_, ?_⟩ <;>
    simp_all [ClickHouse.full_name, Redshift.full_name, Datus.full_name,
      suppliedLevels, quoteSeg, dotJoin, chQuote, rsQuote]

/-- C1 witness: the hypothesis-bearing conjuncts of
`C1_full_name_quoted_segments` instantiated at concrete names. -/
theorem C1_full_name_quoted_segments_witness :
    ClickHouse.full_name (some "mydb") "mytable"
        = ("\x60" ++ "mydb" ++ "\x60") ++ "." ++ ("\x60" ++ "mytable" ++ "\x60") ∧
    Redshift.full_name (some "mydb") (some "myschema") "mytable"
        = ("\"" ++ "mydb" ++ "\"") ++ "."
            ++ (("\"" ++ "myschema" ++ "\"") ++ "." ++ ("\"" ++ "mytable" ++ "\"")) :=
  ⟨C1_full_name_quoted_segments.2.2.1 "mydb" "mytable" (by decide),
   C1_full_name_quoted_segments.2.2.2.1 "mydb" "myschema" "mytable" (by decide) (by decide)⟩

/-- C2: for every engine and every combination of supplied levels,
`identifier` returns an unquoted dot-joined string containing exactly the
supplied non-empty namespace levels plus the table name, in
database.schema.table order; in particular
`identifier(database_name := "mydb", table_name := "mytable")` on the
ClickHouse connector is `"mydb.mytable"`. -/
theorem C2_identifier_unquoted :
    (∀ t : String, ClickHouse.identifier none t = t) ∧
    (∀ t : String, Redshift.identifier none none t = t) ∧
    (∀ db t : String, db ≠ "" → ClickHouse.identifier (some db) t = db ++ "." ++ t) ∧
    (∀ db sc t : String, db ≠ "" → sc ≠ "" →
      Redshift.identifier (some db) (some sc) t = db ++ "." ++ (sc ++ "." ++ t)) ∧
    (∀ sc t : String, sc ≠ "" → Redshift.identifier none (some sc) t = sc ++ "." ++ t) ∧
    (∀ t : String, ClickHouse.identifier (some "") t = t) ∧
    ClickHouse.identifier (some "mydb") "mytable" = "mydb.mytable" := by
  refine ⟨fun t => ?_, fun t => ?_, fun db t h => ?_, fun db sc t h1 h2 => ?_,
    fun sc t h => ?_, fun t => ?_, ?_⟩ <;>
    simp_all [ClickHouse.identifier, Redshift.identifier, Datus.identifier,
      suppliedLevels, dotJoin]

/-- C2 witness: the hypothesis-bearing conjuncts of `C2_identifier_unquoted`
instantiated at concrete names. -/
theorem C2_identifier_unquoted_witness :
    ClickHouse.identifier (some "mydb") "mytable" = "mydb" ++ "." ++ "mytable" ∧
    Redshift.identifier (some "mydb") (some "myschema") "mytable"
        = "mydb" ++ "." ++ ("myschema" ++ "." ++ "mytable") ∧
    Redshift.identifier none (some "myschema") "mytable" = "myschema" ++ "." ++ "mytable" :=
  ⟨C2_identifier_unquoted.2.2.1 "mydb" "mytable" (by decide),
   C2_identifier_unquoted.2.2.2.1 "mydb" "myschema" "mytable" (by decide) (by decide),
   C2_identifier_unquoted.2.2.2.2.1 "myschema" "mytable" (by decide)⟩

/-- C3: querying a non-existent table is a QueryError-kind structured
failure, never an empty success — the ClickHouse connector raises a typed
DatusException, while the Redshift connector returns a result with
success=false, a populated error, and no payload. -/
theorem C3_nonexistent_table_query_error :
    ∀ (db : DBState) (t : String), db.lookupTable t = none →
      ClickHouse.execute db (.selectAll t)
          = .error (.queryError (.unknownTable t)) ∧
      (Redshift.execute_query db (.selectAll t)).2.success = false ∧
      (Redshift.execute_query db (.selectAll t)).2.error
          = some (QueryError.unknownTable t).message ∧
      (Redshift.execute_query db (.selectAll t)).2.sql_return = none := by
  intro db t h
  simp [ClickHouse.execute, Redshift.execute_query, runStmt, h]

/-- C3 witness: `C3_nonexistent_table_query_error` on an empty database and
the table name `nonexistent_table`. -/
theorem C3_nonexistent_table_query_error_witness :
    ClickHouse.execute ⟨[]⟩ (.selectAll "nonexistent_table")
        = .error (.queryError (.unknownTable "nonexistent_table")) ∧
    (Redshift.execute_query ⟨[]⟩ (.selectAll "nonexistent_table")).2.success = false ∧
    (Redshift.execute_query ⟨[]⟩ (.selectAll "nonexistent_table")).2.error
        = some (QueryError.unknownTable "nonexistent_table").message ∧
    (Redshift.execute_query ⟨[]⟩ (.selectAll "nonexistent_table")).2.sql_return = none :=
  C3_nonexistent_table_query_error ⟨[]⟩ "nonexistent_table" (by decide)

/-- C5: `execute` on `SELECT 1 as num` in list format yields success=true,
no error, and payload exactly `[{"num": 1}]` on both connectors; more
generally a successful result carries no error and a failed result carries
no payload. -/
theorem C5_select_one_success_payload :
    (∀ db : DBState, ClickHouse.execute db (.selectConst "num" (.int 1))
        = .ok (db, ⟨true, none, some 1, some [[("num", .int 1)]]⟩)) ∧
    (∀ db : DBState, (Redshift.execute_query db (.selectConst "num" (.int 1))).2
        = ⟨true, none, some 1, some [[("num", .int 1)]]⟩) ∧
    (∀ (db : DBState) (q : Stmt),
      ((Redshift.execute_query db q).2.success = true →
        (Redshift.execute_query db q).2.error = none) ∧
      ((Redshift.execute_query db q).2.success = false →
        (Redshift.execute_query db q).2.sql_return = none)) ∧
    (∀ (db db2 : DBState) (q : Stmt) (r : SqlResult),
      ClickHouse.execute db q = .ok (db2, r) → r.success = true ∧ r.error = none) := by
  refine ⟨fun db => ?_, fun db => ?_, fun db q => ?_, fun db db2 q r h => ?_⟩
  · simp [ClickHouse.execute, runStmt]
  · simp [Redshift.execute_query, runStmt]
  · cases h : runStmt db q <;> simp [Redshift.execute_query, h]
  · cases hr : runStmt db q <;> simp [ClickHouse.execute, hr] at h
    simp [← h.2]

/-- C5 witness: the hypothesis-bearing conjuncts of
`C5_select_one_success_payload` at concrete inputs — a failed query on an
empty database carries no payload, and a successful `.ok` result carries no
error. -/
theorem C5_select_one_success_payload_witness :
    (Redshift.execute_query ⟨[]⟩ (.selectAll "missing")).2.sql_return = none ∧
    ((⟨true, none, some 1, some [[("num", Value.int 1)]]⟩ : SqlResult).success = true ∧
      (⟨true, none, some 1, some [[("num", Value.int 1)]]⟩ : SqlResult).error = none) :=
  ⟨(C5_select_one_success_payload.2.2.1 ⟨[]⟩ (.selectAll "missing")).2 (by decide),
   C5_select_one_success_payload.2.2.2 ⟨[]⟩ ⟨[]⟩ (.selectConst "num" (.int 1))
     ⟨true, none, some 1, some [[("num", Value.int 1)]]⟩ (by decide)⟩

/-- The database of the spec's update scenario: a `users` table holding
rows (1,'Alice') and (2,'Bob'). -/
def usersDb : DBState :=
  ⟨[("users", [[("id", .int 1), ("name", .str "Alice")],
               [("id", .int 2), ("name", .str "Bob")]])]⟩

/-- The database after the scenario's update: row 1's name is
'Alice Updated', row 2 untouched. -/
def usersDbUpdated : DBState :=
  ⟨[("users", [[("id", .int 1), ("name", .str "Alice Updated")],
               [("id", .int 2), ("name", .str "Bob")]])]⟩

/-- C6: on a table holding (1,'Alice') and (2,'Bob'), the update setting
name='Alice Updated' where id=1 succeeds with row_count=1, and the
subsequent select of name where id=1 in list format yields exactly
`[{"name": "Alice Updated"}]`, on both connectors. -/
theorem C6_update_scenario :
    ClickHouse.execute usersDb (.update "users" "name" (.str "Alice Updated") "id" (.int 1))
        = .ok (usersDbUpdated, ⟨true, none, some 1, none⟩) ∧
    ClickHouse.execute usersDbUpdated (.selectWhere ["name"] "users" "id" (.int 1))
        = .ok (usersDbUpdated, ⟨true, none, some 1, some [[("name", .str "Alice Updated")]]⟩) ∧
    Redshift.execute_query usersDb (.update "users" "name" (.str "Alice Updated") "id" (.int 1))
        = (usersDbUpdated, ⟨true, none, some 1, none⟩) ∧
    Redshift.execute_query usersDbUpdated (.selectWhere ["name"] "users" "id" (.int 1))
        = (usersDbUpdated, ⟨true, none, some 1, some [[("name", .str "Alice Updated")]]⟩) := by
  decide

/-- The database of the sampling boundary check: one table `t3` with three
rows. -/
def sampleDb : DBState :=
  ⟨[("t3", [[("id", .int 1)], [("id", .int 2)], [("id", .int 3)]])]⟩

/-- C7: `get_sample_rows` returns, in request order, exactly one record per
existing requested table (silently omitting tables that do not exist), each
carrying the table name and at most `top_n` rows taken in engine order; with
`top_n=2` on a 3-row table the record holds exactly the first 2 rows. -/
theorem C7_get_sample_rows_cap :
    (∀ (db : DBState) (ts : List String) (n : Nat),
      (get_sample_rows db ts n).map SampleRecord.table_name
        = ts.filter (fun t => (db.lookupTable t).isSome)) ∧
    (∀ (db : DBState) (ts : List String) (n : Nat) (sr : SampleRecord),
      sr ∈ get_sample_rows db ts n →
        sr.sample_rows.length ≤ n ∧ sr.table_name ∈ ts ∧
        ∃ rs, db.lookupTable sr.table_name = some rs ∧ sr.sample_rows = rs.take n) ∧
    get_sample_rows sampleDb ["t3"] 2 = [⟨"t3", [[("id", .int 1)], [("id", .int 2)]]⟩] := by
  refine ⟨fun db ts n => ?_, fun db ts n sr hsr => ?_, by decide⟩
  · induction ts with
    | nil => rfl
    | cons t ts ih =>
      cases h : db.lookupTable t <;>
        simp [get_sample_rows, List.filterMap_cons, h] <;>
        simpa [get_sample_rows] using ih
  · simp only [get_sample_rows, List.mem_filterMap, Option.map_eq_some'] at hsr
    obtain ⟨t, ht, rs, hrs, hrec⟩ := hsr
    subst hrec
    exact ⟨by simp, ht, rs, hrs, rfl⟩

/-- C7 witness: `C7_get_sample_rows_cap` on the 3-row table with top_n=2 —
the returned record holds at most 2 rows. -/
theorem C7_get_sample_rows_cap_witness :
    (⟨"t3", [[("id", Value.int 1)], [("id", Value.int 2)]]⟩ : SampleRecord).sample_rows.length ≤ 2 ∧
    (⟨"t3", [[("id", Value.int 1)], [("id", Value.int 2)]]⟩ : SampleRecord).table_name ∈ ["t3"] ∧
    ∃ rs, sampleDb.lookupTable "t3" = some rs ∧
      [[("id", Value.int 1)], [("id", Value.int 2)]] = rs.take 2 :=
  C7_get_sample_rows_cap.2.1 sampleDb ["t3"] 2
    ⟨"t3", [[("id", Value.int 1)], [("id", Value.int 2)]]⟩ (by decide)

/-- C4: `get_schema` returns one Column Descriptor per engine-reported
column, in engine order, with the name and the boolean nullability and
primary-key flags carried over, the type normalized; every 64-bit integer
variant's normalized type contains "int64", every textual variant's contains
"string", and the normalized type is lower-cased. -/
theorem C4_get_schema_descriptors :
    (∀ cols : List RawColumn,
      List.Forall₂
        (fun c d => d.name = c.name ∧ d.nullable = c.nullable ∧ d.pk = c.pk ∧
          d.type = ClickHouse.normalizeType c.nativeType)
        cols (ClickHouse.get_schema cols)) ∧
    (∀ cols : List RawColumn,
      List.Forall₂
        (fun c d => d.name = c.name ∧ d.nullable = c.nullable ∧ d.pk = c.pk ∧
          d.type = Redshift.normalizeType c.nativeType)
        cols (Redshift.get_schema cols)) ∧
    (∀ t, t ∈ chInt64Types → containsSub "int64" (ClickHouse.normalizeType t) = true) ∧
    (∀ t, t ∈ chStringTypes → containsSub "string" (ClickHouse.normalizeType t) = true) ∧
    (∀ t, t ∈ rsInt64Types → containsSub "int64" (Redshift.normalizeType t) = true) ∧
    (∀ t, t ∈ rsStringTypes → containsSub "string" (Redshift.normalizeType t) = true) ∧
    (∀ t, t ∈ chInt64Types ++ chStringTypes →
      ClickHouse.normalizeType t = lowerStr (ClickHouse.normalizeType t)) ∧
    (∀ t, t ∈ rsInt64Types ++ rsStringTypes →
      Redshift.normalizeType t = lowerStr (Redshift.normalizeType t)) := by
  refine ⟨fun cols => ?_, fun cols => ?_,
    by decide, by decide, by decide, by decide, by decide, by decide⟩
  · induction cols with
    | nil => exact .nil
    | cons c cs ih => exact .cons ⟨rfl, rfl, rfl, rfl⟩ ih
  · induction cols with
    | nil => exact .nil
    | cons c cs ih => exact .cons ⟨rfl, rfl, rfl, rfl⟩ ih

/-- C4 witness: the hypothesis-bearing conjuncts of
`C4_get_schema_descriptors` at concrete native type names from each
variant list. -/
theorem C4_get_schema_descriptors_witness :
    containsSub "int64" (ClickHouse.normalizeType "Nullable(Int64)") = true ∧
    containsSub "string" (ClickHouse.normalizeType "Nullable(String)") = true ∧
    containsSub "int64" (Redshift.normalizeType "bigint") = true ∧
    containsSub "string" (Redshift.normalizeType "character varying") = true ∧
    ClickHouse.normalizeType "Int64" = lowerStr (ClickHouse.normalizeType "Int64") ∧
    Redshift.normalizeType "bigint" = lowerStr (Redshift.normalizeType "bigint") :=
  ⟨C4_get_schema_descriptors.2.2.1 "Nullable(Int64)" (by decide),
   C4_get_schema_descriptors.2.2.2.1 "Nullable(String)" (by decide),
   C4_get_schema_descriptors.2.2.2.2.1 "bigint" (by decide),
   C4_get_schema_descriptors.2.2.2.2.2.1 "character varying" (by decide),
   C4_get_schema_descriptors.2.2.2.2.2.2.1 "Int64" (by decide),
   C4_get_schema_descriptors.2.2.2.2.2.2.2 "bigint" (by decide)⟩

/-- C8: for every engine, constructing from an unordered string-keyed
mapping is equivalent to constructing from the typed Configuration with the
same field values — the dict path round-trips to the typed value, and the
dict path depends only on the mapping's key lookups, never on entry order. -/
theorem C8_dict_config_equivalence :
    (∀ c : RedshiftConfig, RedshiftConfig.fromDict c.toDict = .ok c) ∧
    (∀ c : ClickHouseConfig, ClickHouseConfig.fromDict c.toDict = .ok c) ∧
    (∀ d₁ d₂ : ConfigDict, (∀ k, d₁.lookup k = d₂.lookup k) →
      RedshiftConfig.fromDict d₁ = RedshiftConfig.fromDict d₂) ∧
    (∀ d₁ d₂ : ConfigDict, (∀ k, d₁.lookup k = d₂.lookup k) →
      ClickHouseConfig.fromDict d₁ = ClickHouseConfig.fromDict d₂) := by
  refine ⟨fun c => rfl, fun c => rfl, fun d₁ d₂ h => ?_, fun d₁ d₂ h => ?_⟩
  · simp only [RedshiftConfig.fromDict, getStr, getNat, getBool, h]
  · simp only [ClickHouseConfig.fromDict, getStr, getNat, getBool, h]

/-- C8 witness: `C8_dict_config_equivalence` applied to two permutations of
the same minimal Redshift mapping and of the same ClickHouse mapping. -/
theorem C8_dict_config_equivalence_witness :
    RedshiftConfig.fromDict
        [("host", .str "h"), ("username", .str "u"), ("password", .str "p")]
      = RedshiftConfig.fromDict
        [("password", .str "p"), ("host", .str "h"), ("username", .str "u")] ∧
    ClickHouseConfig.fromDict
        [("host", .str "h"), ("port", .nat 9000), ("username", .str "u"),
         ("password", .str "")]
      = ClickHouseConfig.fromDict
        [("username", .str "u"), ("password", .str ""), ("port", .nat 9000),
         ("host", .str "h")] :=
  ⟨C8_dict_config_equivalence.2.2.1 _ _ (by
      intro k
      by_cases h1 : k = "host" <;> by_cases h2 : k = "username" <;>
        by_cases h3 : k = "password" <;>
        simp_all [List.lookup_cons, beq_eq_decide]),
   C8_dict_config_equivalence.2.2.2 _ _ (by
      intro k
      by_cases h1 : k = "host" <;> by_cases h2 : k = "username" <;>
        by_cases h3 : k = "password" <;> by_cases h4 : k = "port" <;>
        simp_all [List.lookup_cons, beq_eq_decide])⟩

/-- C9: a Redshift Configuration built from only host, username, and
password takes the engine defaults for the omitted fields — port 5439 and
SSL on — while preserving the three supplied values; the same holds through
the dict construction path, and no connection is involved (construction is a
pure function). -/
theorem C9_redshift_config_defaults :
    ∀ h u p : String,
      ({ host := h, username := u, password := p } : RedshiftConfig).port = 5439 ∧
      ({ host := h, username := u, password := p } : RedshiftConfig).ssl = true ∧
      ({ host := h, username := u, password := p } : RedshiftConfig).host = h ∧
      ({ host := h, username := u, password := p } : RedshiftConfig).username = u ∧
      ({ host := h, username := u, password := p } : RedshiftConfig).password = p ∧
      RedshiftConfig.fromDict [("host", .str h), ("username", .str u), ("password", .str p)]
        = .ok { host := h, username := u, password := p } :=
  fun _ _ _ => ⟨rfl, rfl, rfl, rfl, rfl, rfl⟩

/-- C10: `datus_clickhouse.register()` registers exactly one entry in the
host registry — it binds the tag "clickhouse" to the ClickHouse connector
implementation, grows the registry by exactly that one binding, and leaves
the binding of every other tag unchanged. -/
theorem C10_register_single_entry :
    ∀ reg : Registry,
      register reg = ("clickhouse", ConnectorImpl.clickHouseConnector) :: reg ∧
      (register reg).length = reg.length + 1 ∧
      (register reg).lookup "clickhouse" = some ConnectorImpl.clickHouseConnector ∧
      ∀ tag : String, tag ≠ "clickhouse" → (register reg).lookup tag = reg.lookup tag := by
  intro reg
  refine ⟨rfl, by simp [register, registryRegister], ?_, fun tag htag => ?_⟩
  · simp [register, registryRegister, List.lookup]
  · simp [register, registryRegister, List.lookup_cons, beq_eq_decide, htag]

/-- C10 witness: `C10_register_single_entry` on the empty registry, with the
unrelated tag "redshift" left unbound. -/
theorem C10_register_single_entry_witness :
    register [] = [("clickhouse", ConnectorImpl.clickHouseConnector)] ∧
    (register []).lookup "redshift" = ([] : Registry).lookup "redshift" :=
  ⟨(C10_register_single_entry []).1,
   (C10_register_single_entry []).2.2.2 "redshift" (by decide)⟩

end Datus
